import Mathlib

/-
Verification of the simons-quant-screener core (quant_screener.py,
backtester.py, returns_tracker.py) against its natural-language
specification.

Modelling conventions:
- Python floats are modelled by exact rationals.  Float square roots
  (pandas .std) are modelled by the fixed-point approximation rsqrt
  below; no claim in this development depends on the numeric accuracy
  of the square root, only on its sign and on exact zero cases.
- Dates (pandas DatetimeIndex entries, compared in the source through
  their YYYY-MM-DD strings) are modelled by natural numbers counting
  days since 1970-01-01, so that string comparison of dates coincides
  with the order on the naturals and pandas dayofweek is (d + 3) % 7.
- A pandas DataFrame of OHLCV history is a chronological list of bars.
- Wall-clock timestamps (the scan_date field) and file persistence are
  outside the model; no claim mentions them.
-/

set_option maxRecDepth 20000
set_option maxHeartbeats 4000000

namespace QS

/-- One daily OHLCV bar.  The date is a day ordinal (days since epoch). -/
structure Bar where
  date : Nat
  open_ : Rat
  high : Rat
  low : Rat
  close : Rat
  volume : Rat
deriving DecidableEq

/-- A price history (pandas DataFrame with a datetime index), oldest bar first. -/
abbrev PriceDf := List Bar

def closes (df : PriceDf) : List Rat := df.map (fun b => b.close)

def opens (df : PriceDf) : List Rat := df.map (fun b => b.open_)

def volumes (df : PriceDf) : List Rat := df.map (fun b => b.volume)

def dates (df : PriceDf) : List Nat := df.map (fun b => b.date)

/-- Element k positions from the end, i.e. pandas iloc[-k] (k at least 1). -/
def iloc (l : List Rat) (k : Nat) : Rat := l.getD (l.length - k) 0

/-- Last k elements of a list, i.e. a [-k:] slice. -/
def lastN (k : Nat) {a : Type} (l : List a) : List a := l.drop (l.length - k)

/-- Arithmetic mean, 0 on the empty list (guarded in all uses). -/
def mean (l : List Rat) : Rat := if l.length = 0 then 0 else l.sum / (l.length : Rat)

/-- Newton iteration for the integer square root, with an explicit fuel
argument so that the recursion is structural (and hence reduces inside the
kernel); the iteration stops as soon as it is no longer decreasing, which for
a positive radicand and fuel at least log2 of it yields the floor of the
square root. -/
def isqrtFuel : Nat → Nat → Nat → Nat
  | 0, _, x => x
  | fuel + 1, n, x =>
    let xn := (x + n / x) / 2
    if xn < x then isqrtFuel fuel n xn else x

/-- Integer square root (equal to Nat.sqrt on every input below 2^200). -/
def isqrt (n : Nat) : Nat := if n = 0 then 0 else isqrtFuel 200 n n

/-- Fixed-point model of the float square root: the integer square root of
the radicand scaled by 10^12, divided by 10^6.  Nonnegative by construction. -/
def rsqrt (q : Rat) : Rat := ((isqrt (Int.toNat (Int.floor (q * 1000000000000))) : Rat)) / 1000000

/-- Sample standard deviation (pandas .std, ddof = 1); 0 when fewer than two
points (all call sites guard the length so this case is never hit). -/
def sampleStd (l : List Rat) : Rat :=
  if l.length < 2 then 0
  else rsqrt (((l.map (fun x => (x - mean l) ^ 2)).sum) / ((l.length - 1 : Nat) : Rat))

/-- Pandas pct_change(p) with the leading NaN entries dropped: entry j is
l[j+p] / l[j] - 1, for j from 0 to length - p - 1. -/
def pctChange (p : Nat) (l : List Rat) : List Rat :=
  (List.range (l.length - p)).map (fun j => l.getD (j + p) 0 / l.getD j 0 - 1)

/-- Numpy clip: clamp x into the interval from lo to hi. -/
def pyclip (x lo hi : Rat) : Rat := if x < lo then lo else if hi < x then hi else x

/-- Python round(x, n) as exact decimal rounding of the rational value.
Exact ties round half up in the model (Python rounds the nearest binary
float; no input in this development sits on a tie). -/
def pyround (n : Nat) (q : Rat) : Rat := ((round (q * (10 ^ n : Nat)) : Int) : Rat) / (10 ^ n : Nat)

/-- Python int(): truncation toward zero. -/
def pyint (q : Rat) : Int := Int.tdiv q.num q.den

/-- The 1e-8 epsilon added to standard deviations before dividing. -/
def eps8 : Rat := 1 / 100000000

/-- Pandas dayofweek for a day ordinal (Monday = 0; day 0 = 1970-01-01, a Thursday). -/
def weekday (d : Nat) : Nat := (d + 3) % 7

/-- A quantitative signal: a name, an aggregation weight and a scoring
function (class QuantSignal of quant_screener.py).  The benchmark state of
RelativeStrength (set_market_benchmark) is threaded as a parameter when the
signal is built, so compute is a pure function of the history. -/
structure QuantSignal where
  name : String
  weight : Rat
  compute : PriceDf → Rat

/-- MomentumAnomaly.compute (quant_screener.py lines 47-64). -/
def momentumCompute (window : Nat) (df : PriceDf) : Rat :=
  if df.length < window + 20 then 0
  else
    let cl := closes df
    let recentReturn := iloc cl 1 / iloc cl window - 1
    let historicalReturns := (pctChange window cl).dropLast
    if historicalReturns.length < 20 then 0
    else
      let zScore := (recentReturn - mean historicalReturns) / (sampleStd historicalReturns + eps8)
      pyclip (zScore / 3) (-1) 1

/-- VolumeSpike.compute (quant_screener.py lines 77-93). -/
def volumeSpikeCompute (lookback : Nat) (df : PriceDf) : Rat :=
  if df.length < lookback + 5 then 0
  else
    let vol := volumes df
    let recentVol := mean (lastN 3 vol)
    let histVol := (vol.drop (vol.length - (lookback + 3))).take lookback
    if sampleStd histVol = 0 then 0
    else
      let zScore := (recentVol - mean histVol) / (sampleStd histVol + eps8)
      pyclip (zScore / 3) 0 1

/-- VolatilityCompression.compute (quant_screener.py lines 107-131). -/
def volatilityCompressionCompute (shortWindow longWindow : Nat) (df : PriceDf) : Rat :=
  if df.length < longWindow + 10 then 0
  else
    let returns := pctChange 1 (closes df)
    let shortVol := sampleStd (lastN shortWindow returns)
    let longVol := sampleStd (lastN longWindow returns)
    if longVol = 0 then 0
    else
      let ratio := shortVol / longVol
      if ratio < 6/10 then 1
      else if ratio < 8/10 then 1/2
      else if 3/2 < ratio then -(1/2)
      else 0

/-- MeanReversionSetup.compute (quant_screener.py lines 144-172). -/
def meanReversionCompute (window : Nat) (df : PriceDf) : Rat :=
  if df.length < window + 10 then 0
  else
    let cl := closes df
    let currentMean := mean (lastN window cl)
    let currentStd := sampleStd (lastN window cl)
    let currentPrice := iloc cl 1
    if currentStd = 0 then 0
    else
      let zScore := (currentPrice - currentMean) / currentStd
      if zScore < -2 then 8/10
      else if zScore < -(3/2) then 1/2
      else if 2 < zScore then -(8/10)
      else if 3/2 < zScore then -(1/2)
      else 0

/-- TrendConsistency.compute (quant_screener.py lines 185-207): ordinary
least squares of the last window closes against the index 0..window-1;
scipy linregress reports r = 0 when the price variance is zero. -/
def trendConsistencyCompute (window : Nat) (df : PriceDf) : Rat :=
  if df.length < window + 5 then 0
  else
    let prices := lastN window (closes df)
    let xbar : Rat := ((window - 1 : Nat) : Rat) / 2
    let ybar := mean prices
    let sxx := ((List.range window).map (fun i => ((i : Rat) - xbar) ^ 2)).sum
    let sxy := ((List.range window).map (fun (i : Nat) => ((i : Rat) - xbar) * (prices.getD i 0 - ybar))).sum
    let syy := (prices.map (fun y => (y - ybar) ^ 2)).sum
    let slope := sxy / sxx
    let rSquared := if syy = 0 then 0 else sxy ^ 2 / (sxx * syy)
    let direction : Rat := if 0 < slope then 1 else -1
    if 8/10 < rSquared then direction * 1
    else if 6/10 < rSquared then direction * (1/2)
    else 0

/-- RelativeStrength.compute (quant_screener.py lines 225-244); marketReturns
is the benchmark window-day return installed by set_market_benchmark, none
when no benchmark was supplied. -/
def relativeStrengthCompute (window : Nat) (marketReturns : Option Rat) (df : PriceDf) : Rat :=
  if df.length < window + 5 ∨ marketReturns = none then 0
  else
    let cl := closes df
    let stockReturn := iloc cl 1 / iloc cl window - 1
    let excessReturn := stockReturn - marketReturns.getD 0
    if 1/10 < excessReturn then 1
    else if 1/20 < excessReturn then 1/2
    else if excessReturn < -(1/10) then -1
    else if excessReturn < -(1/20) then -(1/2)
    else 0

/-- GapPattern.compute (quant_screener.py lines 256-281): mean open-over-
previous-close gap of the last three sessions. -/
def gapPatternCompute (df : PriceDf) : Rat :=
  if df.length < 10 then 0
  else
    let n := df.length
    let gaps := (List.range 3).map (fun j =>
      ((opens df).getD (n - 3 + j) 0 - (closes df).getD (n - 4 + j) 0) / (closes df).getD (n - 4 + j) 0)
    let avgGap := mean gaps
    if 1/50 < avgGap then 8/10
    else if 1/100 < avgGap then 4/10
    else if avgGap < -(1/50) then -(8/10)
    else if avgGap < -(1/100) then -(4/10)
    else 0

/-- DayOfWeekEffect.compute (quant_screener.py lines 293-319): mean daily
return of the current weekday versus the overall mean daily return.  The
source also guards the current weekday being absent from the groupby index,
which cannot happen with at least 60 bars since the last bar always belongs
to its own group; that dead branch is not modelled. -/
def dayOfWeekEffectCompute (df : PriceDf) : Rat :=
  if df.length < 60 then 0
  else
    let n := df.length
    let rets := pctChange 1 (closes df)
    let dayList := df.map (fun b => weekday b.date)
    let today := dayList.getD (n - 1) 0
    let todayRets := (List.range (n - 1)).filterMap (fun j =>
      if dayList.getD (j + 1) 0 = today then some (rets.getD j 0) else none)
    let todayAvg := mean todayRets
    let overallAvg := mean rets
    if overallAvg + 1/1000 < todayAvg then 1/2
    else if todayAvg < overallAvg - 1/1000 then -(1/2)
    else 0

/-- PriceAcceleration.compute (quant_screener.py lines 332-350): the series
acceleration[i] = momentum[i] - momentum[i - window] (momentum = pct_change
by window) is defined from index 2*window on; the current value is compared
to the sample deviation of all earlier defined values. -/
def priceAccelerationCompute (window : Nat) (df : PriceDf) : Rat :=
  if df.length < window * 3 then 0
  else
    let cl := closes df
    let n := cl.length
    let accelAt := fun (i : Nat) =>
      (cl.getD i 0 / cl.getD (i - window) 0 - 1) - (cl.getD (i - window) 0 / cl.getD (i - 2 * window) 0 - 1)
    let accel := (List.range (n - 2 * window)).map (fun j => accelAt (j + 2 * window))
    let currentAccel := accel.getD (accel.length - 1) 0
    let histAccelStd := sampleStd accel.dropLast
    if histAccelStd = 0 then 0
    else
      let zScore := currentAccel / (histAccelStd + eps8)
      pyclip (zScore / 2) (-1) 1

/-- VolumeProfileAnomaly.compute (quant_screener.py lines 363-389): signed
on-balance volume flow over the last window bars, normalised by average
volume times window. -/
def volumeProfileCompute (window : Nat) (df : PriceDf) : Rat :=
  if df.length < window + 5 then 0
  else
    let recent := lastN window df
    let obvChanges := (recent.zip recent.tail).map (fun pr =>
      if pr.1.close < pr.2.close then pr.2.volume
      else if pr.2.close < pr.1.close then -pr.2.volume
      else 0)
    let netFlow := obvChanges.sum
    let avgVolume := mean (recent.map (fun b => b.volume))
    if avgVolume = 0 then 0
    else
      let normalizedFlow := netFlow / (avgVolume * (window : Rat))
      pyclip (normalizedFlow * 2) (-1) 1

/-- The eleven signals registered in QuantScreener.__init__ (lines 399-411),
with the benchmark window-day return (set by set_market_benchmark, modelled
as the Option parameter) already installed in RelativeStrength. -/
def screenerSignals (marketReturns : Option Rat) : List QuantSignal :=
  [ ⟨"momentum_5d", 12/10, momentumCompute 5⟩,
    ⟨"momentum_10d", 12/10, momentumCompute 10⟩,
    ⟨"volume_spike", 1, volumeSpikeCompute 20⟩,
    ⟨"vol_compression", 11/10, volatilityCompressionCompute 5 20⟩,
    ⟨"mean_reversion", 1, meanReversionCompute 20⟩,
    ⟨"trend_quality", 8/10, trendConsistencyCompute 20⟩,
    ⟨"relative_strength", 1, relativeStrengthCompute 20 marketReturns⟩,
    ⟨"gap_pattern", 9/10, gapPatternCompute⟩,
    ⟨"day_effect", 1/2, dayOfWeekEffectCompute⟩,
    ⟨"price_acceleration", 9/10, priceAccelerationCompute 10⟩,
    ⟨"volume_profile", 1, volumeProfileCompute 20⟩ ]

/-- Minimum lookback of each registered signal, in registration order, read
off the early-exit guards of the compute methods: fewer bars than this make
the signal return the neutral 0.0. -/
def signalMinBars : List Nat := [25, 30, 25, 30, 30, 25, 25, 10, 60, 30, 25]

/-- Benchmark return installed by RelativeStrength.set_market_benchmark
(quant_screener.py lines 221-223): the window-day pct_change at the LAST bar
of the supplied market frame.  With fewer than window + 1 bars the pandas
value is NaN, which makes every comparison in compute false exactly as the
none case does. -/
def marketLastRet (window : Nat) (marketDf : PriceDf) : Option Rat :=
  if marketDf.length < window + 1 then none
  else some (iloc (closes marketDf) 1 / iloc (closes marketDf) (window + 1) - 1)

/-- The per-stock scan record built by QuantScreener.score_stock (lines
469-480).  The wall-clock scan_date field is outside the model. -/
structure StockScore where
  symbol : String
  composite_score : Rat
  active_signals : Nat
  signal_breakdown : List (String × Rat)
  last_price : Rat
  change_1d : Rat
  change_5d : Rat
  avg_volume : Int
  volatility_20d : Rat
deriving DecidableEq

/-- QuantScreener.score_stock (quant_screener.py lines 420-480).  The signal
loop stores each signal value rounded to 3 decimals in the breakdown map,
accumulates the raw weighted values, and counts signals with raw absolute
value above 0.3 as active; the positive/negative agreement counts for the
convergence bonus are taken over the ROUNDED breakdown values.  Signal
evaluation is total in the model, so the per-signal exception branch of the
source (which would drop a failing signal from the weight sum) is never
taken. -/
def scoreStock (signals : List QuantSignal) (symbol : String) (df : PriceDf) : Option StockScore :=
  if df.length < 60 then none
  else
    let vals := signals.map (fun s => (s.name, s.weight, s.compute df))
    let totalWeightedScore := (vals.map (fun t => t.2.2 * t.2.1)).sum
    let totalWeight := (vals.map (fun t => t.2.1)).sum
    let activeSignals := (vals.filter (fun t => 3/10 < |t.2.2|)).length
    let scores := vals.map (fun t => (t.1, pyround 3 t.2.2))
    if totalWeight = 0 then none
    else
      let compositeScore := totalWeightedScore / totalWeight
      let convergenceBonus : Rat :=
        if 5 ≤ activeSignals then 2/10 else if 3 ≤ activeSignals then 1/10 else 0
      let positiveSignals := (scores.filter (fun p => 3/10 < p.2)).length
      let negativeSignals := (scores.filter (fun p => p.2 < -(3/10))).length
      let adjusted :=
        if negativeSignals < positiveSignals then compositeScore + convergenceBonus
        else if positiveSignals < negativeSignals then compositeScore - convergenceBonus
        else compositeScore
      some
        { symbol := symbol
          composite_score := pyround 4 adjusted
          active_signals := activeSignals
          signal_breakdown := scores
          last_price := pyround 2 (iloc (closes df) 1)
          change_1d := pyround 2 ((iloc (closes df) 1 / iloc (closes df) 2 - 1) * 100)
          change_5d :=
            if 5 ≤ df.length then pyround 2 ((iloc (closes df) 1 / iloc (closes df) 5 - 1) * 100)
            else 0
          avg_volume := pyint (mean (lastN 20 (volumes df)))
          volatility_20d := pyround 2 (sampleStd (lastN 20 (pctChange 1 (closes df))) * 100) }

/-- Descending order on composite scores, the sort key of scan_universe. -/
def scoreGe (a b : StockScore) : Prop := b.composite_score ≤ a.composite_score

instance : DecidableRel scoreGe := fun a b =>
  inferInstanceAs (Decidable (b.composite_score ≤ a.composite_score))

instance : IsTotal StockScore scoreGe :=
  ⟨fun a b => le_total b.composite_score a.composite_score⟩

instance : IsTrans StockScore scoreGe :=
  ⟨fun _ _ _ h1 h2 => le_trans h2 h1⟩

/-- QuantScreener.scan_universe (quant_screener.py lines 482-512): score every
symbol of the universe (a Python dict, modelled as the association list in its
insertion order), keep the non-null records, and sort them by descending
composite score.  Python list.sort is stable, as is insertion sort with this
relation: records with equal scores keep their input order. -/
def scanUniverse (signals : List QuantSignal) (stockData : List (String × PriceDf)) : List StockScore :=
  List.insertionSort scoreGe (stockData.filterMap (fun p => scoreStock signals p.1 p.2))

/-- One entry of the daily_results list built by Backtester.run_backtest
(backtester.py lines 157-165). -/
structure BTDailyRecord where
  date : Nat
  portfolio_value : Rat
  market_value : Rat
  portfolio_return : Rat
  market_return : Rat
  num_picks : Nat
deriving DecidableEq

/-- The mutable loop state of Backtester.run_backtest (lines 78-93): the two
compounding capital values, the held picks, the rebalance counter, and the
accumulated records and curves. -/
structure BTState where
  portfolioValue : Rat
  marketValue : Rat
  currentPicks : List StockScore
  rebalanceCounter : Nat
  dailyResults : List BTDailyRecord
  equityCurve : List Rat
  marketCurve : List Rat
deriving DecidableEq

/-- Python dict lookup of a symbol in the stock_data mapping. -/
def lookupDf (stockData : List (String × PriceDf)) (sym : String) : Option PriceDf :=
  (stockData.find? (fun p => p.1 = sym)).map (fun p => p.2)

/-- Closes of a symbol on a given date ([] when the symbol is absent from the
mapping or has no bar on that date); models the date-equality masks of the
backtest loop. -/
def closesAt (stockData : List (String × PriceDf)) (sym : String) (d : Nat) : List Rat :=
  match lookupDf stockData sym with
  | none => []
  | some df => (df.filter (fun b => b.date = d)).map (fun b => b.close)

/-- Per-pick forward return (backtester.py lines 123-138): needs a close on
both the current and the next date and a positive current price, otherwise
the pick is skipped (none). -/
def pickReturn (stockData : List (String × PriceDf)) (date nextDate : Nat) (pick : StockScore) : Option Rat :=
  let curr := closesAt stockData pick.symbol date
  let next := closesAt stockData pick.symbol nextDate
  if curr = [] ∨ next = [] then none
  else
    let currPrice := curr.headD 0
    let nextPrice := next.headD 0
    if 0 < currPrice then some ((nextPrice / currPrice - 1) * 100) else none

/-- Screening universe at a rebalance (backtester.py lines 101-105): every
symbol truncated to bars dated at or before the current date, kept only with
at least 20 such bars. -/
def btScreening (stockData : List (String × PriceDf)) (cur : Nat) : List (String × PriceDf) :=
  stockData.filterMap (fun p =>
    let truncated := p.2.filter (fun b => b.date ≤ cur)
    if 20 ≤ truncated.length then some (p.1, truncated) else none)

/-- Top picks of a rebalance (backtester.py line 112): scan results with
positive composite score, first num_picks of them. -/
def btTopPicks (stockData : List (String × PriceDf)) (signals : List QuantSignal)
    (numPicks : Nat) (cur : Nat) : List StockScore :=
  ((scanUniverse signals (btScreening stockData cur)).filter
    (fun r => 0 < r.composite_score)).take numPicks

/-- Pick update on a rebalance tick (backtester.py lines 99-115): run the
screen when at least 10 symbols are eligible, and replace the held picks only
when the screen yields a nonempty pick list. -/
def btRebalance (stockData : List (String × PriceDf)) (signals : List QuantSignal)
    (numPicks : Nat) (cur : Nat) (old : List StockScore) : List StockScore :=
  if 10 ≤ (btScreening stockData cur).length then
    (let top := btTopPicks stockData signals numPicks cur
     if top = [] then old else top)
  else old

/-- Held picks used on a step: rebalanced when the counter is at 0, otherwise
unchanged (backtester.py line 99). -/
def btPicksAfter (stockData : List (String × PriceDf)) (signals : List QuantSignal)
    (numPicks : Nat) (s : BTState) (cur : Nat) : List StockScore :=
  if s.rebalanceCounter = 0 then btRebalance stockData signals numPicks cur s.currentPicks
  else s.currentPicks

/-- Benchmark forward return on a step (backtester.py lines 144-155); none
covers the empty-frame and missing-date cases, where the market value is left
unchanged. -/
def marketReturnAt (marketData : PriceDf) (date nextDate : Nat) : Option Rat :=
  let curr := (marketData.filter (fun b => b.date = date)).map (fun b => b.close)
  let next := (marketData.filter (fun b => b.date = nextDate)).map (fun b => b.close)
  if curr = [] ∨ next = [] then none
  else if 0 < curr.headD 0 then some ((next.headD 0 / curr.headD 0 - 1) * 100) else none

/-- One iteration of the backtest date loop (backtester.py lines 95-168) over
the pair (date, next_date). -/
def btStep (stockData : List (String × PriceDf)) (marketData : PriceDf)
    (signals : List QuantSignal) (numPicks rebalanceDays : Nat) (initialCapital : Rat)
    (s : BTState) (pr : Nat × Nat) : BTState :=
  let date := pr.1
  let nextDate := pr.2
  let picks := btPicksAfter stockData signals numPicks s date
  let counter := (s.rebalanceCounter + 1) % rebalanceDays
  let dailyReturns := picks.filterMap (pickReturn stockData date nextDate)
  let portfolioValue :=
    if dailyReturns = [] then s.portfolioValue
    else s.portfolioValue * (1 + mean dailyReturns / 100)
  let marketValue :=
    match marketReturnAt marketData date nextDate with
    | none => s.marketValue
    | some r => s.marketValue * (1 + r / 100)
  { portfolioValue := portfolioValue
    marketValue := marketValue
    currentPicks := picks
    rebalanceCounter := counter
    dailyResults := s.dailyResults ++
      [{ date := nextDate
         portfolio_value := pyround 2 portfolioValue
         market_value := pyround 2 marketValue
         portfolio_return := pyround 2 ((portfolioValue / initialCapital - 1) * 100)
         market_return := pyround 2 ((marketValue / initialCapital - 1) * 100)
         num_picks := picks.length }]
    equityCurve := s.equityCurve ++ [pyround 2 portfolioValue]
    marketCurve := s.marketCurve ++ [pyround 2 marketValue] }

/-- Initial backtest state (backtester.py lines 78-86). -/
def btInit (initialCapital : Rat) : BTState :=
  { portfolioValue := initialCapital
    marketValue := initialCapital
    currentPicks := []
    rebalanceCounter := 0
    dailyResults := []
    equityCurve := [initialCapital]
    marketCurve := [initialCapital] }

/-- State of the backtest loop after the first i date pairs. -/
def btStateAt (stockData : List (String × PriceDf)) (marketData : PriceDf)
    (signals : List QuantSignal) (numPicks rebalanceDays : Nat) (initialCapital : Rat)
    (pairs : List (Nat × Nat)) (i : Nat) : BTState :=
  (pairs.take i).foldl (btStep stockData marketData signals numPicks rebalanceDays initialCapital)
    (btInit initialCapital)

/-- Sorted union of all dates appearing in any symbol of the universe
(backtester.py lines 50-58). -/
def allDates (stockData : List (String × PriceDf)) : List Nat :=
  List.insertionSort (fun a b => a ≤ b) ((stockData.map (fun p => dates p.2)).flatten).dedup

/-- The requested test date window (backtester.py lines 60-71): default start
is 126 trading days before the end, a given bound is resolved to the first
date at or after it. -/
def testDates (stockData : List (String × PriceDf)) (startDate endDate : Option Nat) : List Nat :=
  let sortedDates := allDates stockData
  let startIdx :=
    match startDate with
    | none => sortedDates.length - 126
    | some sd => (sortedDates.findIdx? (fun d => decide (sd ≤ d))).getD 0
  let endIdx :=
    match endDate with
    | none => sortedDates.length - 1
    | some ed => (sortedDates.findIdx? (fun d => decide (ed ≤ d))).getD (sortedDates.length - 1)
  (sortedDates.drop startIdx).take (endIdx + 1 - startIdx)

/-- Backtester.run_backtest (backtester.py lines 28-234) up to the end of the
date loop: none models the two reported error dictionaries (no data, fewer
than 10 usable dates).  The derived summary statistics of lines 174-228 are
read-only aggregates not referenced by any claim and are outside the model,
as is the unused market_start_price assignment of lines 89-91. -/
def runBacktest (stockData : List (String × PriceDf)) (marketData : PriceDf)
    (signals : List QuantSignal) (numPicks rebalanceDays : Nat) (initialCapital : Rat)
    (startDate endDate : Option Nat) : Option BTState :=
  if allDates stockData = [] then none
  else
    let tds := testDates stockData startDate endDate
    if tds.length < 10 then none
    else
      let pairs := tds.zip tds.tail
      some (btStateAt stockData marketData signals numPicks rebalanceDays initialCapital
        pairs pairs.length)

/-- Backtest driven by the QuantScreener passed to it: every rebalance calls
scan_universe(screening_data, market_data), which installs the benchmark
return computed from the LAST bar of the full, untruncated market frame
(quant_screener.py lines 221-223 and 494-495, backtester.py line 109). -/
def runBacktestScreener (stockData : List (String × PriceDf)) (marketData : PriceDf)
    (numPicks rebalanceDays : Nat) (initialCapital : Rat)
    (startDate endDate : Option Nat) : Option BTState :=
  runBacktest stockData marketData (screenerSignals (marketLastRet 20 marketData))
    numPicks rebalanceDays initialCapital startDate endDate

/-- One stock pick entry as consumed by ReturnsTracker.record_daily_return
(only the symbol and return_pct fields are read). -/
structure LedgerPick where
  symbol : String
  return_pct : Rat
deriving DecidableEq

/-- One entry of the persisted daily_returns list (returns_tracker.py lines
73-81). -/
structure LedgerRecord where
  date : Nat
  strategy_return_pct : Rat
  market_return_pct : Rat
  picks_count : Nat
  winning_picks : Nat
  top_performer : Option String
  worst_performer : Option String
deriving DecidableEq

/-- The ReturnsTracker state (returns_tracker.py lines 23-47): initial
capital plus the persisted history record.  File persistence (_save_history)
rewrites this same structure wholesale and is outside the model. -/
structure ReturnsTracker where
  initial_capital : Rat
  start_date : Nat
  daily_returns : List LedgerRecord
  strategy_equity : List Rat
  market_equity : List Rat
  total_strategy_return_pct : Rat
  total_market_return_pct : Rat
deriving DecidableEq

/-- Python max(picks, key return_pct): first pick with the maximal return. -/
def maxByReturn (l : List LedgerPick) : Option LedgerPick :=
  l.foldl (fun acc p =>
    match acc with
    | none => some p
    | some q => if q.return_pct < p.return_pct then some p else acc) none

/-- Python min(picks, key return_pct): first pick with the minimal return. -/
def minByReturn (l : List LedgerPick) : Option LedgerPick :=
  l.foldl (fun acc p =>
    match acc with
    | none => some p
    | some q => if p.return_pct < q.return_pct then some p else acc) none

/-- ReturnsTracker.record_daily_return (returns_tracker.py lines 55-105): a
date already present in the daily_returns list makes the call a logged no-op;
otherwise the record is appended, both equity curves are compounded, and both
cumulative totals are recomputed from the new (unrounded) equity values. -/
def recordDailyReturn (t : ReturnsTracker) (date : Nat)
    (strategyReturnPct marketReturnPct : Rat) (picks : Option (List LedgerPick)) : ReturnsTracker :=
  if date ∈ t.daily_returns.map (fun r => r.date) then t
  else
    let pl := picks.getD []
    let dailyRecord : LedgerRecord :=
      { date := date
        strategy_return_pct := pyround 4 strategyReturnPct
        market_return_pct := pyround 4 marketReturnPct
        picks_count := pl.length
        winning_picks := (pl.filter (fun p => 0 < p.return_pct)).length
        top_performer := if pl = [] then none else (maxByReturn pl).map (fun p => p.symbol)
        worst_performer := if pl = [] then none else (minByReturn pl).map (fun p => p.symbol) }
    let lastStrategyEquity := t.strategy_equity.getD (t.strategy_equity.length - 1) 0
    let lastMarketEquity := t.market_equity.getD (t.market_equity.length - 1) 0
    let newStrategyEquity := lastStrategyEquity * (1 + strategyReturnPct / 100)
    let newMarketEquity := lastMarketEquity * (1 + marketReturnPct / 100)
    { t with
      daily_returns := t.daily_returns ++ [dailyRecord]
      strategy_equity := t.strategy_equity ++ [pyround 2 newStrategyEquity]
      market_equity := t.market_equity ++ [pyround 2 newMarketEquity]
      total_strategy_return_pct := pyround 2 ((newStrategyEquity / t.initial_capital - 1) * 100)
      total_market_return_pct := pyround 2 ((newMarketEquity / t.initial_capital - 1) * 100) }

/-- Well-formedness of a price history as assumed by the specification:
strictly positive closing prices and nonnegative volumes. -/
def WellFormed (df : PriceDf) : Prop := ∀ b ∈ df, 0 < b.close ∧ 0 ≤ b.volume

instance (df : PriceDf) : Decidable (WellFormed df) := List.decidableBAll _ df

/-- Modelled from the spec (claim C1 wording): the composite score with the
convergence bonus direction decided by the counts of ACTIVE positive and
ACTIVE negative signals, i.e. counts taken over the raw signal values (value
above 0.3, value below -0.3), not over the values rounded to 3 decimals that
score_stock actually compares. -/
def claimC1Composite (signals : List QuantSignal) (df : PriceDf) : Rat :=
  let vs := signals.map (fun s => (s.compute df, s.weight))
  let composite := (vs.map (fun p => p.1 * p.2)).sum / (vs.map (fun p => p.2)).sum
  let active := (vs.filter (fun p => 3/10 < |p.1|)).length
  let bonus : Rat := if 5 ≤ active then 2/10 else if 3 ≤ active then 1/10 else 0
  let pos := (vs.filter (fun p => 3/10 < p.1)).length
  let neg := (vs.filter (fun p => p.1 < -(3/10))).length
  if neg < pos then composite + bonus
  else if pos < neg then composite - bonus
  else composite

/-- Modelled from the spec (claim C4 wording): the MomentumAnomaly value with
the recent return taken as the most recent window-day return, i.e. the last
entry of pct_change(window) (close[-1] / close[-(window+1)] - 1), z-scored
against the mean and sample deviation of all earlier window-day returns,
divided by 3 and clipped to the unit interval. -/
def claimMomentumCompute (window : Nat) (df : PriceDf) : Rat :=
  if df.length < window + 20 then 0
  else
    let cl := closes df
    let recentReturn := iloc cl 1 / iloc cl (window + 1) - 1
    let historicalReturns := (pctChange window cl).dropLast
    if historicalReturns.length < 20 then 0
    else
      let zScore := (recentReturn - mean historicalReturns) / (sampleStd historicalReturns + eps8)
      pyclip (zScore / 3) (-1) 1

/-- A flat constant bar: price 1 everywhere, volume 1, on day i. -/
def constBar (i : Nat) : Bar := ⟨i, 1, 1, 1, 1, 1⟩

/-- Sixty days of perfectly flat history: every signal is neutral on it. -/
def df60 : PriceDf := (List.range 60).map constBar

/-- Price offsets used by the history below: four bumps of 8 points in the
early section, which widen the historical momentum distributions. -/
def c1off (i : Nat) : Rat := if i = 12 ∨ i = 19 ∨ i = 26 ∨ i = 33 then 8 else 0

/-- Closing prices of the claim-C1 history: a drifting early section with
four bumps, then twenty strictly rising closes alternating increments of 0.6
and 1.4 around the line 140 + (i - 40). -/
def c1close (i : Nat) : Rat :=
  if i < 40 then 100 + (i : Rat) + c1off i
  else (140 + ((i - 40 : Nat) : Rat)) + (if (i - 40) % 2 = 0 then (1/5 : Rat) else -(1/5))

/-- Volumes of the claim-C1 history: flat at 79 except a spike of 8499 at bar
40, sized so that the volume-profile signal is exactly 2 * 1501 / 10000 =
0.3002 - active (above 0.3) but rounding to 0.3. -/
def c1vol (i : Nat) : Rat := if i = 40 then 8499 else 79

/-- Bars of the claim-C1 history; each session opens at the previous close,
so the gap signal is neutral. -/
def c1bar (i : Nat) : Bar := ⟨i, (if i = 0 then c1close 0 else c1close (i - 1)), 0, 0, c1close i, c1vol i⟩

/-- Sixty-bar history on which score_stock and the claim-C1 formula disagree:
the active signals are mean_reversion (-0.5), trend_quality (+1.0) and
volume_profile (+0.3002), so the raw active counts are 2 positive versus 1
negative (claim: add the 0.1 bonus) while the rounded counts tie at 1 each
(code: no bonus). -/
def c1df : PriceDf := (List.range 60).map c1bar

/-- Closing prices of the claim-C4 history: flat at 1 except a single 2 at
bar 21, which separates close[-1]/close[-5] - 1 (the value the code uses for
window 5) from the most recent 5-day return close[-1]/close[-6] - 1. -/
def c4close (i : Nat) : Rat := if i = 21 then 2 else 1

/-- Bars of the claim-C4 history. -/
def c4bar (i : Nat) : Bar := ⟨i, c4close i, c4close i, c4close i, c4close i, 1⟩

/-- Twenty-six-bar history (the shortest length the 5-day momentum signal
evaluates on) exhibiting the off-by-one in its recent return. -/
def c4df : PriceDf := (List.range 26).map c4bar

/-- Ten-symbol universe for the backtest lookahead experiment: every symbol
has 61 flat bars on days 0..60. -/
def c7Stock : List (String × PriceDf) :=
  (List.range 10).map (fun k => ("S" ++ toString k, (List.range 61).map constBar))

/-- Benchmark frame A: 21 flat bars on days 40..60. -/
def c7MarketA : PriceDf := (List.range 21).map (fun i => constBar (40 + i))

/-- Benchmark frame B: identical to frame A on every bar dated at or before
day 59, but the final bar (day 60) closes 20 percent lower. -/
def c7MarketB : PriceDf :=
  (List.range 21).map (fun i => ⟨40 + i, 1, 1, 1, if i = 20 then 4/5 else 1, 1⟩)

/-
Theorems.  Helper lemmas come first; each claim is settled by exactly one
named theorem (with a witness or counterexample where required).
-/

lemma pyclip_mem (x lo hi : Rat) (h : lo ≤ hi) : lo ≤ pyclip x lo hi ∧ pyclip x lo hi ≤ hi := by
  unfold pyclip
  split_ifs with h1 h2
  · exact ⟨le_refl lo, h⟩
  · exact ⟨h, le_refl hi⟩
  · exact ⟨le_of_not_lt h1, le_of_not_lt h2⟩

lemma momentumCompute_mem (w : Nat) (df : PriceDf) :
    -1 ≤ momentumCompute w df ∧ momentumCompute w df ≤ 1 := by
  simp only [momentumCompute]
  split_ifs
  · norm_num
  · norm_num
  · exact pyclip_mem _ _ _ (by norm_num)

lemma volumeSpikeCompute_mem (lb : Nat) (df : PriceDf) :
    -1 ≤ volumeSpikeCompute lb df ∧ volumeSpikeCompute lb df ≤ 1 := by
  simp only [volumeSpikeCompute]
  split_ifs
  · norm_num
  · norm_num
  · refine ⟨le_trans (by norm_num) (pyclip_mem _ 0 1 (by norm_num)).1,
      (pyclip_mem _ 0 1 (by norm_num)).2⟩

lemma volatilityCompressionCompute_mem (sw lw : Nat) (df : PriceDf) :
    -1 ≤ volatilityCompressionCompute sw lw df ∧ volatilityCompressionCompute sw lw df ≤ 1 := by
  simp only [volatilityCompressionCompute]
  split_ifs <;> norm_num

lemma meanReversionCompute_mem (w : Nat) (df : PriceDf) :
    -1 ≤ meanReversionCompute w df ∧ meanReversionCompute w df ≤ 1 := by
  simp only [meanReversionCompute]
  split_ifs <;> norm_num

lemma trendConsistencyCompute_mem (w : Nat) (df : PriceDf) :
    -1 ≤ trendConsistencyCompute w df ∧ trendConsistencyCompute w df ≤ 1 := by
  simp only [trendConsistencyCompute]
  split_ifs <;> norm_num

lemma relativeStrengthCompute_mem (w : Nat) (mkt : Option Rat) (df : PriceDf) :
    -1 ≤ relativeStrengthCompute w mkt df ∧ relativeStrengthCompute w mkt df ≤ 1 := by
  simp only [relativeStrengthCompute]
  split_ifs <;> norm_num

lemma gapPatternCompute_mem (df : PriceDf) :
    -1 ≤ gapPatternCompute df ∧ gapPatternCompute df ≤ 1 := by
  simp only [gapPatternCompute]
  split_ifs <;> norm_num

lemma dayOfWeekEffectCompute_mem (df : PriceDf) :
    -1 ≤ dayOfWeekEffectCompute df ∧ dayOfWeekEffectCompute df ≤ 1 := by
  simp only [dayOfWeekEffectCompute]
  split_ifs <;> norm_num

lemma priceAccelerationCompute_mem (w : Nat) (df : PriceDf) :
    -1 ≤ priceAccelerationCompute w df ∧ priceAccelerationCompute w df ≤ 1 := by
  simp only [priceAccelerationCompute]
  split_ifs
  · norm_num
  · norm_num
  · exact pyclip_mem _ _ _ (by norm_num)

lemma volumeProfileCompute_mem (w : Nat) (df : PriceDf) :
    -1 ≤ volumeProfileCompute w df ∧ volumeProfileCompute w df ≤ 1 := by
  simp only [volumeProfileCompute]
  split_ifs
  · norm_num
  · norm_num
  · exact pyclip_mem _ _ _ (by norm_num)

/-- Claim C2: every signal of the signal library returns a value in the
closed interval from -1 to 1, on every well-formed history and for any
benchmark state. -/
theorem signal_range_bounded (mkt : Option Rat) (s : QuantSignal)
    (hs : s ∈ screenerSignals mkt) (df : PriceDf) (_hdf : WellFormed df) :
    -1 ≤ s.compute df ∧ s.compute df ≤ 1 := by
  fin_cases hs
  · exact momentumCompute_mem 5 df
  · exact momentumCompute_mem 10 df
  · exact volumeSpikeCompute_mem 20 df
  · exact volatilityCompressionCompute_mem 5 20 df
  · exact meanReversionCompute_mem 20 df
  · exact trendConsistencyCompute_mem 20 df
  · exact relativeStrengthCompute_mem 20 mkt df
  · exact gapPatternCompute_mem df
  · exact dayOfWeekEffectCompute_mem df
  · exact priceAccelerationCompute_mem 10 df
  · exact volumeProfileCompute_mem 20 df

/-- Witness for claim C2: the momentum signal on the flat sixty-bar history. -/
theorem signal_range_bounded_witness :
    -1 ≤ (QuantSignal.mk "momentum_5d" (12/10) (momentumCompute 5)).compute df60
    ∧ (QuantSignal.mk "momentum_5d" (12/10) (momentumCompute 5)).compute df60 ≤ 1 :=
  signal_range_bounded none _ (by simp [screenerSignals]) df60 (by decide)

/-- Claim C3: each of the eleven registered signals returns exactly 0.0 on
any history shorter than its minimum lookback (signalMinBars, in
registration order), for any benchmark state. -/
theorem signal_short_history_zero (mkt : Option Rat) (i : Nat) (hi : i < 11) (df : PriceDf)
    (hlen : df.length < signalMinBars.getD i 0) :
    ((screenerSignals mkt).getD i ⟨"", 0, fun _ => 0⟩).compute df = 0 := by
  interval_cases i <;>
    simp only [signalMinBars, screenerSignals, List.getD, List.get?_cons_zero,
      List.get?_cons_succ, Option.getD_some] at hlen ⊢ <;>
    first
      | (rw [momentumCompute, if_pos (by omega)])
      | (rw [volumeSpikeCompute, if_pos (by omega)])
      | (rw [volatilityCompressionCompute, if_pos (by omega)])
      | (rw [meanReversionCompute, if_pos (by omega)])
      | (rw [trendConsistencyCompute, if_pos (by omega)])
      | (rw [relativeStrengthCompute, if_pos (Or.inl (by omega))])
      | (rw [gapPatternCompute, if_pos (by omega)])
      | (rw [dayOfWeekEffectCompute, if_pos (by omega)])
      | (rw [priceAccelerationCompute, if_pos (by omega)])
      | (rw [volumeProfileCompute, if_pos (by omega)])

/-- Witness for claim C3: the 5-day momentum signal on an empty history. -/
theorem signal_short_history_zero_witness :
    ((screenerSignals none).getD 0 ⟨"", 0, fun _ => 0⟩).compute [] = 0 :=
  signal_short_history_zero none 0 (by omega) [] (by simp [signalMinBars])

/-- Claim C9: record_daily_return is idempotent by date - when a record for
the date already exists the whole ledger state (records, both curves, both
totals) is returned unchanged. -/
theorem record_daily_return_idempotent (t : ReturnsTracker) (date : Nat)
    (sp mp : Rat) (picks : Option (List LedgerPick))
    (h : date ∈ t.daily_returns.map (fun r => r.date)) :
    recordDailyReturn t date sp mp picks = t := by
  unfold recordDailyReturn
  rw [if_pos h]

/-- Witness for claim C9: recording day 5 twice on a one-record ledger. -/
theorem record_daily_return_idempotent_witness :
    recordDailyReturn
      { initial_capital := 1000000, start_date := 5,
        daily_returns := [⟨5, 1/2, 1/4, 0, 0, none, none⟩],
        strategy_equity := [1000000, 1005000], market_equity := [1000000, 1002500],
        total_strategy_return_pct := 1/2, total_market_return_pct := 1/4 }
      5 (3/4) (1/4) none =
    { initial_capital := 1000000, start_date := 5,
      daily_returns := [⟨5, 1/2, 1/4, 0, 0, none, none⟩],
      strategy_equity := [1000000, 1005000], market_equity := [1000000, 1002500],
      total_strategy_return_pct := 1/2, total_market_return_pct := 1/4 } :=
  record_daily_return_idempotent _ 5 (3/4) (1/4) none (by simp)

/-- Claim C6: score_stock returns null exactly on histories shorter than 60
bars - null below 60 bars, a record for every well-formed history with at
least 60 bars (the total signal weight 10.6 is never zero, so the zero-weight
null branch of the source is unreachable for this signal set). -/
theorem score_stock_none_iff_60 (mkt : Option Rat) (sym : String) :
    (∀ df : PriceDf, df.length < 60 → scoreStock (screenerSignals mkt) sym df = none)
    ∧ (∀ df : PriceDf, WellFormed df → 60 ≤ df.length →
        ∃ s, scoreStock (screenerSignals mkt) sym df = some s) := by
  constructor
  · intro df h
    unfold scoreStock
    rw [if_pos h]
  · intro df _ h
    have h1 : ¬ df.length < 60 := not_lt.mpr h
    have h2 : ¬ ((List.map (fun t => t.2.1)
        (List.map (fun s => (s.name, s.weight, s.compute df)) (screenerSignals mkt))).sum = (0 : Rat)) := by
      simp [screenerSignals]
      norm_num
    simp only [scoreStock]
    rw [if_neg h1, if_neg h2]
    exact ⟨_, rfl⟩

/-- Witness for claim C6: the flat sixty-bar history is scored. -/
theorem score_stock_none_iff_60_witness :
    ∃ s, scoreStock (screenerSignals none) "A" df60 = some s :=
  (score_stock_none_iff_60 none "A").2 df60 (by with_unfolding_all decide)
    (by with_unfolding_all decide)

lemma btStateAt_succ (sd : List (String × PriceDf)) (md : PriceDf) (sig : List QuantSignal)
    (np k : Nat) (cap : Rat) (pairs : List (Nat × Nat)) (i : Nat) (h : i < pairs.length) :
    btStateAt sd md sig np k cap pairs (i + 1) =
      btStep sd md sig np k cap (btStateAt sd md sig np k cap pairs i) (pairs.getD i (0, 0)) := by
  unfold btStateAt
  rw [List.take_succ, List.getElem?_eq_getElem h, List.foldl_append,
    List.getD_eq_getElem _ _ h]
  rfl

lemma btStateAt_counter (sd : List (String × PriceDf)) (md : PriceDf) (sig : List QuantSignal)
    (np k : Nat) (cap : Rat) (pairs : List (Nat × Nat)) (i : Nat) (h : i ≤ pairs.length) :
    (btStateAt sd md sig np k cap pairs i).rebalanceCounter = i % k := by
  induction i with
  | zero => simp [btStateAt, btInit]
  | succ j ih =>
    have hj : j < pairs.length := lt_of_lt_of_le (Nat.lt_succ_self j) h
    rw [btStateAt_succ sd md sig np k cap pairs j hj]
    simp only [btStep]
    rw [ih (le_of_lt hj)]
    exact Nat.mod_add_mod j k 1

/-- Claim C8: with rebalance parameter k, the held picks change only on loop
steps that are multiples of k (the rebalance counter starts at 0 and cycles
modulo k), and a rebalance step whose screen yields no eligible picks leaves
the previously held picks unchanged. -/
theorem backtest_picks_rebalance_only (sd : List (String × PriceDf)) (md : PriceDf)
    (sig : List QuantSignal) (np k : Nat) (cap : Rat) (pairs : List (Nat × Nat))
    (_hk : 0 < k) (i : Nat) (hi : i < pairs.length) :
    (i % k ≠ 0 →
      (btStateAt sd md sig np k cap pairs (i + 1)).currentPicks =
        (btStateAt sd md sig np k cap pairs i).currentPicks)
    ∧ (i % k = 0 →
        btTopPicks sd sig np (pairs.getD i (0, 0)).1 = [] →
        (btStateAt sd md sig np k cap pairs (i + 1)).currentPicks =
          (btStateAt sd md sig np k cap pairs i).currentPicks) := by
  rw [btStateAt_succ sd md sig np k cap pairs i hi]
  have hc := btStateAt_counter sd md sig np k cap pairs i (le_of_lt hi)
  constructor
  · intro hne
    simp only [btStep, btPicksAfter]
    rw [hc, if_neg hne]
  · intro h0 htop
    simp only [btStep, btPicksAfter]
    rw [hc, if_pos h0]
    unfold btRebalance
    split_ifs with hscr
    · rw [htop]
      simp
    · rfl

/-- Witness for claim C8: on a two-step loop with rebalance every 2 days, the
picks after step 1 equal the picks after step 0. -/
theorem backtest_picks_rebalance_only_witness :
    (btStateAt [] [] [] 25 2 1000000 [(0, 1), (1, 2)] 2).currentPicks =
      (btStateAt [] [] [] 25 2 1000000 [(0, 1), (1, 2)] 1).currentPicks :=
  (backtest_picks_rebalance_only [] [] [] 25 2 1000000 [(0, 1), (1, 2)]
    (by omega) 1 (by simp)).1 (by omega)

/-- Claim C10: on a step where no held pick has a close price on both the
current and the next date, the portfolio value is left unchanged (not zeroed,
not an error) and a daily record carrying that unchanged value is still
appended, as is the equity-curve entry. -/
theorem backtest_missing_prices_frame (sd : List (String × PriceDf)) (md : PriceDf)
    (sig : List QuantSignal) (np k : Nat) (cap : Rat) (s : BTState) (pr : Nat × Nat)
    (h : ∀ p ∈ btPicksAfter sd sig np s pr.1,
      closesAt sd p.symbol pr.1 = [] ∨ closesAt sd p.symbol pr.2 = []) :
    (btStep sd md sig np k cap s pr).portfolioValue = s.portfolioValue
    ∧ (btStep sd md sig np k cap s pr).dailyResults.map (fun r => (r.date, r.portfolio_value)) =
        s.dailyResults.map (fun r => (r.date, r.portfolio_value))
          ++ [(pr.2, pyround 2 s.portfolioValue)]
    ∧ (btStep sd md sig np k cap s pr).equityCurve = s.equityCurve ++ [pyround 2 s.portfolioValue] := by
  have hnil : (btPicksAfter sd sig np s pr.1).filterMap (pickReturn sd pr.1 pr.2) = [] := by
    rw [List.filterMap_eq_nil_iff]
    intro p hp
    unfold pickReturn
    rcases h p hp with h1 | h1
    · rw [if_pos (Or.inl h1)]
    · rw [if_pos (Or.inr h1)]
  simp only [btStep, hnil]
  simp

/-- Witness for claim C10: a step of the empty universe from the initial
state (no picks, hence vacuously no pick with prices on both dates). -/
theorem backtest_missing_prices_frame_witness :
    (btStep [] [] [] 25 1 1000000 (btInit 1000000) (0, 1)).portfolioValue =
      (btInit 1000000).portfolioValue
    ∧ (btStep [] [] [] 25 1 1000000 (btInit 1000000) (0, 1)).dailyResults.map
        (fun r => (r.date, r.portfolio_value)) =
        (btInit 1000000).dailyResults.map (fun r => (r.date, r.portfolio_value))
          ++ [(1, pyround 2 (btInit 1000000).portfolioValue)]
    ∧ (btStep [] [] [] 25 1 1000000 (btInit 1000000) (0, 1)).equityCurve =
        (btInit 1000000).equityCurve ++ [pyround 2 (btInit 1000000).portfolioValue] :=
  backtest_missing_prices_frame [] [] [] 25 1 1000000 (btInit 1000000) (0, 1)
    (by with_unfolding_all decide)

lemma vals_weight_sum (signals : List QuantSignal) (df : PriceDf) :
    ((signals.map (fun s => (s.name, s.weight, s.compute df))).map (fun t => t.2.1)).sum =
      (signals.map (fun s => s.weight)).sum := by
  induction signals with
  | nil => rfl
  | cons a l ih =>
    dsimp only [List.map_cons, List.sum_cons]
    rw [ih]

lemma vals_weighted_sum (signals : List QuantSignal) (df : PriceDf) :
    ((signals.map (fun s => (s.name, s.weight, s.compute df))).map (fun t => t.2.2 * t.2.1)).sum =
      (signals.map (fun s => s.compute df * s.weight)).sum := by
  induction signals with
  | nil => rfl
  | cons a l ih =>
    dsimp only [List.map_cons, List.sum_cons]
    rw [ih]

lemma vals_active_length (signals : List QuantSignal) (df : PriceDf) :
    ((signals.map (fun s => (s.name, s.weight, s.compute df))).filter
        (fun t => 3/10 < |t.2.2|)).length =
      (signals.filter (fun s => 3/10 < |s.compute df|)).length := by
  induction signals with
  | nil => rfl
  | cons a l ih =>
    simp only [List.map_cons, List.filter_cons]
    split_ifs with h1
    · simp only [List.length_cons, ih]
    · exact ih

lemma vals_positive_length (signals : List QuantSignal) (df : PriceDf) :
    (((signals.map (fun s => (s.name, s.weight, s.compute df))).map
        (fun t => (t.1, pyround 3 t.2.2))).filter (fun p => 3/10 < p.2)).length =
      (signals.filter (fun s => 3/10 < pyround 3 (s.compute df))).length := by
  induction signals with
  | nil => rfl
  | cons a l ih =>
    simp only [List.map_cons, List.filter_cons]
    split_ifs with h1
    · simp only [List.length_cons, ih]
    · exact ih

lemma vals_negative_length (signals : List QuantSignal) (df : PriceDf) :
    (((signals.map (fun s => (s.name, s.weight, s.compute df))).map
        (fun t => (t.1, pyround 3 t.2.2))).filter (fun p => p.2 < -(3/10))).length =
      (signals.filter (fun s => pyround 3 (s.compute df) < -(3/10))).length := by
  induction signals with
  | nil => rfl
  | cons a l ih =>
    simp only [List.map_cons, List.filter_cons]
    split_ifs with h1
    · simp only [List.length_cons, ih]
    · exact ih

/-- Corrected claim C1: on a history of at least 60 bars (and nonzero total
signal weight), the composite score returned by score_stock is the weighted
mean of the raw signal values, with the convergence bonus (0.2 from 5 active
signals, 0.1 from 3, measured on raw absolute values above 0.3) added or
subtracted according to the counts of signal values ROUNDED TO 3 DECIMALS
above 0.3 and below -0.3 (not the raw active counts the original claim
describes), the result being stored rounded to 4 decimals. -/
theorem score_stock_composite_formula (signals : List QuantSignal) (sym : String) (df : PriceDf)
    (h60 : 60 ≤ df.length) (hw : ((signals.map (fun s => s.weight)).sum : Rat) ≠ 0) :
    Option.map (fun r => r.composite_score) (scoreStock signals sym df) =
      some (pyround 4 (
        let composite := (signals.map (fun s => s.compute df * s.weight)).sum /
          (signals.map (fun s => s.weight)).sum
        let active := (signals.filter (fun s => 3/10 < |s.compute df|)).length
        let bonus : Rat := if 5 ≤ active then 2/10 else if 3 ≤ active then 1/10 else 0
        let pos := (signals.filter (fun s => 3/10 < pyround 3 (s.compute df))).length
        let neg := (signals.filter (fun s => pyround 3 (s.compute df) < -(3/10))).length
        if neg < pos then composite + bonus
        else if pos < neg then composite - bonus
        else composite)) := by
  have h1 : ¬ df.length < 60 := not_lt.mpr h60
  simp only [scoreStock]
  rw [vals_weight_sum, vals_weighted_sum, vals_active_length, vals_positive_length,
    vals_negative_length, if_neg h1, if_neg hw]
  rfl

/-- Witness for the corrected claim C1: a single always-bullish unit-weight
signal on the flat sixty-bar history. -/
theorem score_stock_composite_formula_witness :
    Option.map (fun r => r.composite_score)
        (scoreStock [⟨"s", 1, fun _ => 1⟩] "A" df60) =
      some (pyround 4 (
        let signals : List QuantSignal := [⟨"s", 1, fun _ => 1⟩]
        let composite := (signals.map (fun s => s.compute df60 * s.weight)).sum /
          (signals.map (fun s => s.weight)).sum
        let active := (signals.filter (fun s => 3/10 < |s.compute df60|)).length
        let bonus : Rat := if 5 ≤ active then 2/10 else if 3 ≤ active then 1/10 else 0
        let pos := (signals.filter (fun s => 3/10 < pyround 3 (s.compute df60))).length
        let neg := (signals.filter (fun s => pyround 3 (s.compute df60) < -(3/10))).length
        if neg < pos then composite + bonus
        else if pos < neg then composite - bonus
        else composite)) :=
  score_stock_composite_formula [⟨"s", 1, fun _ => 1⟩] "A" df60
    (by with_unfolding_all decide) (by simp)

/-- Counterexample to claim C1 as stated: on the 60-bar history c1df the
active signals are mean_reversion (-0.5), trend_quality (+1.0) and
volume_profile (+0.3002); with 2 active positive against 1 active negative
signal the claim adds the 0.1 bonus (predicting 0.1033), but score_stock
compares the rounded values (+0.3002 rounds to 0.3, not above 0.3), sees a
1-1 tie, omits the bonus, and stores 0.0033. -/
theorem score_stock_active_count_counterexample :
    Option.map (fun r => r.composite_score) (scoreStock (screenerSignals none) "X" c1df)
      ≠ some (pyround 4 (claimC1Composite (screenerSignals none) c1df)) := by
  with_unfolding_all decide

/-- Claim C4 (code bug): on the 26-bar history c4df, the 5-day momentum
signal returns the z-score of close[-1]/close[-5] - 1 (a return spanning only
4 bars), which differs from the z-score of the most recent 5-day return
close[-1]/close[-6] - 1 that the specification (and the comparison with the
5-day historical return distribution) calls for. -/
theorem momentum_recent_return_divergence :
    momentumCompute 5 c4df ≠ claimMomentumCompute 5 c4df := by
  with_unfolding_all decide

/-- Corrected claim C5: scan_universe output is sorted non-increasing by
composite score, unconditionally; and it is invariant to the input ordering
whenever the composite scores of the scored records are pairwise distinct.
With tied scores the stable sort preserves the input order, so full
order-invariance fails (see the counterexample). -/
theorem scan_universe_sorted_invariant (signals : List QuantSignal)
    (u1 : List (String × PriceDf)) :
    (scanUniverse signals u1).Sorted scoreGe
      ∧ ∀ u2 : List (String × PriceDf), u1.Perm u2 →
          (scanUniverse signals u1).Pairwise
            (fun a b => a.composite_score ≠ b.composite_score) →
          scanUniverse signals u1 = scanUniverse signals u2 := by
  have hs1 : (scanUniverse signals u1).Sorted scoreGe := List.sorted_insertionSort _ _
  refine ⟨hs1, fun u2 hperm hdist => ?_⟩
  have hs2 : (scanUniverse signals u2).Sorted scoreGe := List.sorted_insertionSort _ _
  have hp : (scanUniverse signals u1).Perm (scanUniverse signals u2) :=
    (List.perm_insertionSort _ _).trans
      ((hperm.filterMap _).trans (List.perm_insertionSort _ _).symm)
  have hdist2 : (scanUniverse signals u2).Pairwise
      (fun a b => a.composite_score ≠ b.composite_score) :=
    (hp.pairwise_iff (fun h => Ne.symm h)).mp hdist
  have hgt1 : (scanUniverse signals u1).Pairwise
      (fun a b => b.composite_score < a.composite_score) :=
    (hs1.and hdist).imp (fun h => lt_of_le_of_ne h.1 (Ne.symm h.2))
  have hgt2 : (scanUniverse signals u2).Pairwise
      (fun a b => b.composite_score < a.composite_score) :=
    (hs2.and hdist2).imp (fun h => lt_of_le_of_ne h.1 (Ne.symm h.2))
  haveI : IsAntisymm StockScore (fun a b => b.composite_score < a.composite_score) :=
    ⟨fun _ _ h1' h2' => absurd (lt_trans h1' h2') (lt_irrefl _)⟩
  exact List.eq_of_perm_of_sorted hp hgt1 hgt2

/-- Witness for the corrected claim C5: a two-symbol universe whose scores
differ (the flat history scores 0.0, c1df scores 0.0033), swapped by a
genuine transposition - the scan result is sorted and identical for the two
input orders. -/
theorem scan_universe_sorted_invariant_witness :
    (scanUniverse (screenerSignals none) [("A", df60), ("B", c1df)]).Sorted scoreGe
      ∧ scanUniverse (screenerSignals none) [("A", df60), ("B", c1df)] =
        scanUniverse (screenerSignals none) [("B", c1df), ("A", df60)] :=
  ⟨(scan_universe_sorted_invariant (screenerSignals none) [("A", df60), ("B", c1df)]).1,
    (scan_universe_sorted_invariant (screenerSignals none) [("A", df60), ("B", c1df)]).2
      [("B", c1df), ("A", df60)] (List.Perm.swap ("B", c1df) ("A", df60) [])
      (by with_unfolding_all decide)⟩

/-- Counterexample to claim C5 as stated: two symbols with identical flat
histories score identically, and the stable sort keeps them in input order,
so listing the same mapping in the two orders produces two different result
lists. -/
theorem scan_universe_tie_order_counterexample :
    scanUniverse (screenerSignals none) [("A", df60), ("B", df60)]
      ≠ scanUniverse (screenerSignals none) [("B", df60), ("A", df60)] := by
  with_unfolding_all decide

/-- Claim C7 (code bug): the two runs below feed the backtest stock and
benchmark data that agree on every bar dated at or before day 59, the date of
the rebalance on loop step 8; yet the rebalance selects no picks in run A and
ten picks in run B, because scan_universe receives the untruncated benchmark
frame and RelativeStrength reads its last bar - dated day 60, after the
rebalance date. -/
theorem backtest_benchmark_lookahead :
    c7Stock = c7Stock
    ∧ c7MarketA.filter (fun b => b.date ≤ 59) = c7MarketB.filter (fun b => b.date ≤ 59)
    ∧ Option.map (fun st => st.dailyResults.map (fun r => r.num_picks))
        (runBacktestScreener c7Stock c7MarketA 25 8 1000000 (some 51) none)
      ≠ Option.map (fun st => st.dailyResults.map (fun r => r.num_picks))
        (runBacktestScreener c7Stock c7MarketB 25 8 1000000 (some 51) none) := by
  with_unfolding_all decide

end QS
